import Mathlib

/-
Shallow embedding of src/components/FloorMap.vue (the floor-plan viewer).

The component's reactive refs become fields of `MapState`; every handler of
the component becomes a function `MapState → MapState` (or returns an extra
`Option String` carrying a thrown/rejected error message).  Numeric
coordinates are rationals (exact arithmetic in place of JS numbers).

External collaborators (the Leaflet engine and the router) are modelled by
the capability surface the spec assigns them:
  - `unproject` is Leaflet `map.unproject(point, zoom)` under `CRS.Simple`
    (transformation (1, 0, -1, 0), scale 2^zoom);
  - `LatLngBounds` normalises its two corners to south/west/north/east;
  - `LatLngBounds.padBy` is Leaflet `LatLngBounds.pad(bufferRatio)`;
  - the router is the single `name` query key (`MapState.query`);
  - camera commands (`setView` / `fitBounds`) are recorded in
    `MapState.camera` as the last command issued.
-/

/-- Input marker entity: `{ id, x, y, label }` from the `markers` prop. -/
structure Marker where
  id : Int
  x : ℚ
  y : ℚ
  label : String
deriving DecidableEq

/-- A projected-space coordinate (Leaflet `LatLng`). -/
structure LatLng where
  lat : ℚ
  lng : ℚ
deriving DecidableEq

/-- Axis-aligned rectangle in projected space (Leaflet `LatLngBounds`),
stored in normalised south/north/west/east form. -/
structure LatLngBounds where
  south : ℚ
  north : ℚ
  west : ℚ
  east : ℚ
deriving DecidableEq

/-- Modelled from the spec: the engine's bounds constructor normalises two
corner coordinates into a south-west / north-east pair. -/
def mkLatLngBounds (c1 c2 : LatLng) : LatLngBounds :=
  { south := min c1.lat c2.lat
    north := max c1.lat c2.lat
    west := min c1.lng c2.lng
    east := max c1.lng c2.lng }

/-- Modelled from the spec: the engine bounds type supports a `pad(fraction)`
expansion — each side moves outward by `fraction` of the corresponding
extent, and the two padded corners are normalised again. -/
def LatLngBounds.padBy (b : LatLngBounds) (r : ℚ) : LatLngBounds :=
  let heightBuffer := |b.south - b.north| * r
  let widthBuffer := |b.west - b.east| * r
  mkLatLngBounds
    { lat := b.south - heightBuffer, lng := b.west - widthBuffer }
    { lat := b.north + heightBuffer, lng := b.east + widthBuffer }

/-- Modelled from the spec: `map.unproject(point, zoom)` for the simple
(unbounded planar) projection — divide by the scale `2 ^ zoom` and flip the
y axis, giving `lat = -y / 2^zoom`, `lng = x / 2^zoom`. -/
def unproject (p : ℚ × ℚ) (zoom : ℤ) : LatLng :=
  { lat := -(p.2 / (2 : ℚ) ^ zoom), lng := p.1 / (2 : ℚ) ^ zoom }

/-- The icon built by `createMarkerIcon`: its html carries the label text and
the `selected` css class when the marker is the selected one. -/
structure DivIcon where
  label : String
  selected : Bool
deriving DecidableEq

/-- A live on-screen marker handle (a Leaflet marker): its projected
position and its icon. -/
structure Handle where
  latlng : LatLng
  icon : DivIcon
deriving DecidableEq

/-- The last camera command issued to the engine: `setView(center, zoom)` or
`fitBounds(bounds)`. -/
inductive CameraCmd where
  | view (center : LatLng) (zoom : ℚ)
  | fit (bounds : LatLngBounds)
deriving DecidableEq

/-- Return type of `calculateBounds`. -/
structure MapBounds where
  bottomLeft : LatLng
  topRight : LatLng
deriving DecidableEq

/-- The component's reactive state.  `map`, `L` and `mapContainer` record
whether the corresponding ref is set (the handles themselves live in the
engine); `markerLayer` is the marker layer's contents when the layer
exists; `markersRef` is the label-keyed JS object of marker handles, kept
as an insertion-ordered association list; `query` is the router's `name`
key; `log` collects console error output. -/
structure MapState where
  mapContainer : Bool
  map : Bool
  L : Bool
  markerLayer : Option (List Handle)
  imageOverlay : Option LatLngBounds
  isMapInitialized : Bool
  imageHeight : ℚ
  selectedMarkerLabel : String
  markersRef : List (String × Handle)
  defaultBounds : Option LatLngBounds
  maxBoundsSet : Option LatLngBounds
  markers : List Marker
  query : Option String
  camera : Option CameraCmd
  log : List String
deriving DecidableEq

/-- JS-object read `markersRef.value[label]`. -/
def lookupAssoc (l : List (String × Handle)) (k : String) : Option Handle :=
  (l.find? (fun p => p.1 == k)).map (fun p => p.2)

/-- JS-object write `markersRef.value[label] = handle`: overwrite in place
when the key exists, append otherwise. -/
def assocSet (l : List (String × Handle)) (k : String) (v : Handle) :
    List (String × Handle) :=
  if l.any (fun p => p.1 == k) then
    l.map (fun p => if p.1 == k then (k, v) else p)
  else l ++ [(k, v)]

/-- Truthiness of the pushed query object: `name ? \x7b name \x7d : undefined` —
an empty string clears the key. -/
def navQueryOf (n : String) : Option String :=
  if n = "" then none else some n

/-- `setQueryParam`: push the selection label (or clear it) to the router's
`name` query key. -/
def setQueryParam (n : String) (s : MapState) : MapState :=
  { s with query := navQueryOf n }

/-- `setStateFromQueryParam`: read the `name` query key; when absent (or
empty, which is falsy) return; otherwise set the selection and, when the
map handle exists, call `selectedMarker.getLatLng()` — which throws a
TypeError when `markersRef` has no handle under that label.  The second
component is the thrown error, `none` when the call returns normally. -/
def setStateFromQueryParam (s : MapState) : MapState × Option String :=
  match s.query with
  | none => (s, none)
  | some n =>
    if n = "" then (s, none)
    else
      let s1 := { s with selectedMarkerLabel := n }
      if s1.map then
        match lookupAssoc s1.markersRef n with
        | some h => ({ s1 with camera := some (CameraCmd.view h.latlng 1) }, none)
        | none => (s1, some "TypeError: selectedMarker is undefined")
      else (s1, none)

/-- `createMarkerIcon`: when the library ref is unset return the empty stub
icon; otherwise a div icon whose html carries the label and whose classes
carry `selected` gated on `isSelected`. -/
def createMarkerIcon (label : String) (isSelected : Bool) (s : MapState) : DivIcon :=
  if s.L then { label := label, selected := isSelected }
  else { label := "", selected := false }

/-- `resetMapView`: when both the map handle and `defaultBounds` exist, fit
the viewport to `defaultBounds`; otherwise do nothing. -/
def resetMapView (s : MapState) : MapState :=
  match s.map, s.defaultBounds with
  | true, some b => { s with camera := some (CameraCmd.fit b) }
  | _, _ => s

/-- `transformCoordinates`: keep x, flip y against the captured
`imageHeight`. -/
def transformCoordinates (x y : ℚ) (s : MapState) : ℚ × ℚ :=
  (x, s.imageHeight - y)

/-- One iteration of the `updateMarkers` loop body: transform the marker's
pixel coordinates, unproject them at zoom 0, and build the handle with the
icon styled by whether the marker is the selected one. -/
def mkHandle (s : MapState) (m : Marker) : Handle :=
  let t := transformCoordinates m.x m.y s
  { latlng := unproject t 0
    icon := createMarkerIcon m.label (m.label == s.selectedMarkerLabel) s }

/-- `updateMarkers` (the reconciliation pass): early-return unless the map
handle, the marker layer and the library ref all exist; then clear the
layer and the handle map and rebuild both from `props.markers`.  The loop
mutates only the layer and `markersRef`; `map`, `imageHeight` and the
selection are read but never reassigned inside it, so the per-marker
`if (!map.value) return` check reads the unchanged `s.map`. -/
def updateMarkers (s : MapState) : MapState :=
  if s.map ∧ s.markerLayer.isSome ∧ s.L then
    let cleared : List Handle × List (String × Handle) := ([], [])
    let res := s.markers.foldl
      (fun acc m =>
        if s.map then
          let h := mkHandle s m
          (acc.1 ++ [h], assocSet acc.2 m.label h)
        else acc)
      cleared
    { s with markerLayer := some res.1, markersRef := res.2 }
  else s

/-- `handleMarkerClick` (the selection-toggle protocol): re-clicking the
selected label clears the selection and resets the view; otherwise the
label becomes selected and, when its handle exists and the map handle is
set, the camera centers on it at zoom 1.  Every path then writes the new
selection back to the query key and reconciles the marker layer. -/
def handleMarkerClick (label : String) (s : MapState) : MapState :=
  let s1 :=
    if s.selectedMarkerLabel == label then
      resetMapView { s with selectedMarkerLabel := "" }
    else
      let s2 := { s with selectedMarkerLabel := label }
      match lookupAssoc s2.markersRef label, s2.map with
      | some h, true => { s2 with camera := some (CameraCmd.view h.latlng 1) }
      | _, _ => s2
  updateMarkers (setQueryParam s1.selectedMarkerLabel s1)

/-- `calculateBounds`: unproject the image's bottom-left and top-right
pixel corners at the reference zoom 0. -/
def calculateBounds (width height : ℚ) : MapBounds :=
  { bottomLeft := unproject (0, height) 0
    topRight := unproject (width, 0) 0 }

/-- `initializeMap` with the image-load outcome made explicit: `imgLoad` is
`some (width, height)` when the image resource loads and `none` when it
errors.  On failure the error is logged and rethrown (second component);
the steps after the failed await never run.  On success the image metrics
are captured, bounds computed and applied, the overlay and marker layer
attached, the viewport fitted, markers reconciled, and the ready flag
set. -/
def initializeMap (s : MapState) (imgLoad : Option (ℚ × ℚ)) :
    MapState × Option String :=
  if ¬ s.mapContainer then (s, none)
  else
    let s1 := { s with L := true, map := true }
    match imgLoad with
    | none =>
      ({ s1 with log := s1.log ++ ["Error initializing map:"] },
        some "Failed to load floor plan")
    | some wh =>
      let s2 := { s1 with imageHeight := wh.2 }
      let mb := calculateBounds wh.1 wh.2
      let bounds := mkLatLngBounds mb.bottomLeft mb.topRight
      let s3 := { s2 with defaultBounds := some bounds }
      let padding : ℚ := 10
      let s4 := { s3 with
        maxBoundsSet := some (bounds.padBy (padding / max wh.1 wh.2))
        imageOverlay := some bounds
        markerLayer := some []
        camera := some (CameraCmd.fit bounds) }
      let s5 := updateMarkers s4
      ({ s5 with isMapInitialized := true }, none)

/-- The `onMounted` flow: `initializeMap().then(setStateFromQueryParam).catch(log)` —
an error from either stage is caught at the end and logged. -/
def onMountedFlow (s : MapState) (imgLoad : Option (ℚ × ℚ)) : MapState :=
  match initializeMap s imgLoad with
  | (s1, some _) => { s1 with log := s1.log ++ ["Failed to initialize map:"] }
  | (s1, none) =>
    match setStateFromQueryParam s1 with
    | (s2, some _) => { s2 with log := s2.log ++ ["Failed to initialize map:"] }
    | (s2, none) => s2

/-- The component's state at mount: every ref at its declared initial value,
the container element bound by the template, and the props and the
router's current query supplied from outside. -/
def initialState (markers : List Marker) (q : Option String) : MapState :=
  { mapContainer := true
    map := false
    L := false
    markerLayer := none
    imageOverlay := none
    isMapInitialized := false
    imageHeight := 0
    selectedMarkerLabel := ""
    markersRef := []
    defaultBounds := none
    maxBoundsSet := none
    markers := markers
    query := q
    camera := none
    log := [] }

/-- A sequence of marker clicks (`selectMarker` calls), applied in order. -/
def applyClicks (ls : List String) (s : MapState) : MapState :=
  ls.foldl (fun st l => handleMarkerClick l st) s

/-- The state reached by the success branch of `initializeMap` just before
its reconciliation pass: library and map handle set, image metrics
captured, bounds computed and applied, overlay and (empty) marker layer
attached, viewport fitted to the default bounds. -/
def postLoadState (s : MapState) (w h : ℚ) : MapState :=
  let mb := calculateBounds w h
  let bounds := mkLatLngBounds mb.bottomLeft mb.topRight
  { s with
      L := true
      map := true
      imageHeight := h
      defaultBounds := some bounds
      maxBoundsSet := some (bounds.padBy (10 / max w h))
      imageOverlay := some bounds
      markerLayer := some []
      camera := some (CameraCmd.fit bounds) }

/-- The marker layer contents produced by a reconciliation pass over state
`s`: one handle per input marker, in order. -/
def layerOf (s : MapState) : List Handle :=
  s.markers.map (mkHandle s)

/-- The handle map produced by a reconciliation pass over state `s`. -/
def refsOf (s : MapState) : List (String × Handle) :=
  s.markers.foldl (fun a m => assocSet a m.label (mkHandle s m)) []

/-- The marker list of the spec's walk-through scenario. -/
def demoMarkers : List Marker :=
  [{ id := 1, x := 10, y := 20, label := "A" },
   { id := 2, x := 30, y := 5, label := "B" }]

/-- The default bounds of a 100 × 50 image (corners unprojected at zoom 0). -/
def demoBounds : LatLngBounds :=
  { south := -50, north := 0, west := 0, east := 100 }

/-- A Ready component state over the demo markers (image 100 × 50). -/
def demoReady : MapState :=
  { initialState demoMarkers none with
      map := true
      L := true
      markerLayer := some []
      imageHeight := 50
      defaultBounds := some demoBounds
      isMapInitialized := true }

/-- The Ready demo state with marker "A" currently selected. -/
def demoReadySelA : MapState :=
  { demoReady with selectedMarkerLabel := "A", query := some "A" }

/-- A Ready state with a stale selection: "A" is selected but the marker
list (and hence the handle registry) no longer contains it. -/
def demoStale : MapState :=
  { demoReady with selectedMarkerLabel := "A", query := some "A", markers := [] }

@[simp] theorem setQueryParam_proj (n : String) (s : MapState) :
    (setQueryParam n s).map = s.map ∧ (setQueryParam n s).L = s.L ∧
    (setQueryParam n s).markers = s.markers ∧
    (setQueryParam n s).markerLayer = s.markerLayer ∧
    (setQueryParam n s).markersRef = s.markersRef ∧
    (setQueryParam n s).defaultBounds = s.defaultBounds ∧
    (setQueryParam n s).camera = s.camera ∧
    (setQueryParam n s).selectedMarkerLabel = s.selectedMarkerLabel ∧
    (setQueryParam n s).imageHeight = s.imageHeight ∧
    (setQueryParam n s).query = navQueryOf n :=
  ⟨rfl, rfl, rfl, rfl, rfl, rfl, rfl, rfl, rfl, rfl⟩

@[simp] theorem resetMapView_proj (s : MapState) :
    (resetMapView s).map = s.map ∧ (resetMapView s).L = s.L ∧
    (resetMapView s).markers = s.markers ∧
    (resetMapView s).markerLayer = s.markerLayer ∧
    (resetMapView s).markersRef = s.markersRef ∧
    (resetMapView s).defaultBounds = s.defaultBounds ∧
    (resetMapView s).selectedMarkerLabel = s.selectedMarkerLabel ∧
    (resetMapView s).query = s.query ∧
    (resetMapView s).imageHeight = s.imageHeight := by
  unfold resetMapView
  split <;> exact ⟨rfl, rfl, rfl, rfl, rfl, rfl, rfl, rfl, rfl⟩

theorem resetMapView_hit (s : MapState) (b : LatLngBounds)
    (h1 : s.map = true) (h2 : s.defaultBounds = some b) :
    resetMapView s = { s with camera := some (CameraCmd.fit b) } := by
  unfold resetMapView
  rw [h1, h2]

theorem resetMapView_miss (s : MapState) (h : s.map = false) :
    resetMapView s = s := by
  unfold resetMapView
  rw [h]

theorem resetMapView_miss_bounds (s : MapState) (h : s.defaultBounds = none) :
    resetMapView s = s := by
  unfold resetMapView
  rw [h]
  split <;> simp_all

@[simp] theorem updateMarkers_proj (s : MapState) :
    (updateMarkers s).map = s.map ∧ (updateMarkers s).L = s.L ∧
    (updateMarkers s).markers = s.markers ∧
    (updateMarkers s).defaultBounds = s.defaultBounds ∧
    (updateMarkers s).maxBoundsSet = s.maxBoundsSet ∧
    (updateMarkers s).camera = s.camera ∧
    (updateMarkers s).selectedMarkerLabel = s.selectedMarkerLabel ∧
    (updateMarkers s).query = s.query ∧
    (updateMarkers s).imageHeight = s.imageHeight ∧
    (updateMarkers s).isMapInitialized = s.isMapInitialized ∧
    (updateMarkers s).log = s.log := by
  unfold updateMarkers
  split <;> exact ⟨rfl, rfl, rfl, rfl, rfl, rfl, rfl, rfl, rfl, rfl, rfl⟩

theorem foldl_body_eq (s : MapState) (hmap : s.map = true) (ms : List Marker)
    (acc : List Handle × List (String × Handle)) :
    ms.foldl
      (fun acc m =>
        if s.map then
          let h := mkHandle s m
          (acc.1 ++ [h], assocSet acc.2 m.label h)
        else acc)
      acc
    = (acc.1 ++ ms.map (mkHandle s),
       ms.foldl (fun a m => assocSet a m.label (mkHandle s m)) acc.2) := by
  induction ms generalizing acc with
  | nil => cases acc; simp
  | cons m rest ih =>
    rw [List.foldl_cons, ih]
    simp [hmap]

theorem updateMarkers_run (s : MapState)
    (h1 : s.map = true) (h2 : s.markerLayer.isSome = true) (h3 : s.L = true) :
    updateMarkers s =
      { s with markerLayer := some (layerOf s), markersRef := refsOf s } := by
  unfold updateMarkers
  rw [if_pos ⟨h1, h2, h3⟩]
  simp only [foldl_body_eq s h1, layerOf, refsOf, List.nil_append]

theorem updateMarkers_skip (s : MapState)
    (h : ¬ (s.map = true ∧ s.markerLayer.isSome = true ∧ s.L = true)) :
    updateMarkers s = s := by
  unfold updateMarkers
  rw [if_neg]
  simpa using h

/-- C1: the coordinate transformation keeps x and flips y against the
captured image height; it is a pure total function, and at image height 50
it sends (10, 20) to (10, 30) and (30, 5) to (30, 45). -/
theorem toProjected_flips_y :
    (∀ (x y : ℚ) (s : MapState), transformCoordinates x y s = (x, s.imageHeight - y))
    ∧ (∀ s : MapState,
        transformCoordinates 10 20 { s with imageHeight := 50 } = (10, 30)
        ∧ transformCoordinates 30 5 { s with imageHeight := 50 } = (30, 45)) := by
  refine ⟨fun x y s => rfl, fun s => ⟨?_, ?_⟩⟩ <;>
    simp only [transformCoordinates, Prod.mk.injEq] <;> norm_num

theorem updateMarkers_isSome (s : MapState) :
    (updateMarkers s).markerLayer.isSome = s.markerLayer.isSome := by
  unfold updateMarkers
  split
  · rename_i h
    simp [h.2.1]
  · rfl

theorem lookupAssoc_isSome_any (l : List (String × Handle)) (k : String) :
    (lookupAssoc l k).isSome = l.any (fun p => p.1 == k) := by
  unfold lookupAssoc
  induction l with
  | nil => rfl
  | cons a rest ih =>
    rw [List.find?_cons, List.any_cons]
    cases hpa : (a.1 == k)
    · simpa [hpa] using ih
    · simp [hpa]

theorem lookupAssoc_assocSet_isSome (a : List (String × Handle)) (k : String)
    (v : Handle) (k2 : String) :
    (lookupAssoc (assocSet a k v) k2).isSome
      ↔ (lookupAssoc a k2).isSome ∨ k2 = k := by
  simp only [lookupAssoc_isSome_any, assocSet]
  split
  · rename_i h
    rw [List.any_map]
    simp only [List.any_eq_true, Function.comp_apply, beq_iff_eq] at h ⊢
    constructor
    · rintro ⟨p, hp, hq⟩
      by_cases hpk : p.1 = k
      · rw [if_pos (by simpa using hpk)] at hq
        exact Or.inr hq.symm
      · rw [if_neg (by simpa using hpk)] at hq
        exact Or.inl ⟨p, hp, hq⟩
    · rintro (⟨p, hp, hq⟩ | rfl)
      · by_cases hpk : p.1 = k
        · obtain ⟨p0, hp0, hpk0⟩ := h
          refine ⟨p0, hp0, ?_⟩
          rw [if_pos (by simpa using hpk0)]
          rw [hpk] at hq
          exact hq.symm ▸ rfl
        · exact ⟨p, hp, by rw [if_neg (by simpa using hpk)]; exact hq⟩
      · obtain ⟨p0, hp0, hpk0⟩ := h
        exact ⟨p0, hp0, by rw [if_pos (by simpa using hpk0)]⟩
  · simp only [List.any_append, List.any_cons, List.any_nil, Bool.or_false,
      Bool.or_eq_true, List.any_eq_true, beq_iff_eq]
    constructor
    · rintro (h | h)
      · exact Or.inl h
      · exact Or.inr h.symm
    · rintro (h | h)
      · exact Or.inl h
      · exact Or.inr h.symm

theorem lookupAssoc_fold_isSome (s : MapState) (ms : List Marker)
    (acc : List (String × Handle)) (k : String) :
    (lookupAssoc (ms.foldl (fun a m => assocSet a m.label (mkHandle s m)) acc) k).isSome
      ↔ (lookupAssoc acc k).isSome ∨ k ∈ ms.map Marker.label := by
  induction ms generalizing acc with
  | nil => simp
  | cons m rest ih =>
    rw [List.foldl_cons, ih, lookupAssoc_assocSet_isSome]
    simp [or_assoc]

theorem refsOf_isSome (s : MapState) (k : String) :
    (lookupAssoc (refsOf s) k).isSome ↔ k ∈ s.markers.map Marker.label := by
  rw [refsOf, lookupAssoc_fold_isSome]
  simp [lookupAssoc]

/-- C5: after a reconciliation pass on a live map (map handle, marker layer
and library ref all set), the handle map's key set equals exactly the set
of labels of the input markers, whatever it held before. -/
theorem reconcile_key_set_eq_labels (s : MapState)
    (h1 : s.map = true) (h2 : s.markerLayer.isSome = true) (h3 : s.L = true) :
    ∀ l, (lookupAssoc (updateMarkers s).markersRef l).isSome
          ↔ l ∈ s.markers.map Marker.label := by
  intro l
  rw [updateMarkers_run s h1 h2 h3]
  exact refsOf_isSome s l

/-- Witness for C5 at the Ready demo state. -/
theorem reconcile_key_set_eq_labels_witness :
    demoReady.map = true ∧ demoReady.markerLayer.isSome = true ∧
    demoReady.L = true ∧
    (∀ l, (lookupAssoc (updateMarkers demoReady).markersRef l).isSome
            ↔ l ∈ demoReady.markers.map Marker.label) :=
  ⟨rfl, rfl, rfl, reconcile_key_set_eq_labels demoReady rfl rfl rfl⟩

/-- C10: a reconciliation pass never changes the selection or the
navigation-state key — `updateMarkers` only reads them. -/
theorem reconcile_preserves_selection_and_query (s : MapState) :
    (updateMarkers s).selectedMarkerLabel = s.selectedMarkerLabel ∧
    (updateMarkers s).query = s.query := by
  unfold updateMarkers
  split <;> exact ⟨rfl, rfl⟩

theorem hmc_toggle (l : String) (s : MapState) (heq : s.selectedMarkerLabel = l) :
    handleMarkerClick l s
      = updateMarkers (setQueryParam "" (resetMapView { s with selectedMarkerLabel := "" })) := by
  unfold handleMarkerClick
  rw [if_pos (by simp [heq])]
  simp

theorem hmc_select_found (l : String) (s : MapState) (h : Handle)
    (hne : s.selectedMarkerLabel ≠ l) (hlk : lookupAssoc s.markersRef l = some h)
    (hmap : s.map = true) :
    handleMarkerClick l s
      = updateMarkers (setQueryParam l
          { s with selectedMarkerLabel := l
                   camera := some (CameraCmd.view h.latlng 1) }) := by
  have hb : (s.selectedMarkerLabel == l) = false := by simpa using hne
  simp [handleMarkerClick, hb, hlk, hmap, setQueryParam]

theorem hmc_select_skip (l : String) (s : MapState)
    (hne : s.selectedMarkerLabel ≠ l)
    (hskip : lookupAssoc s.markersRef l = none ∨ s.map = false) :
    handleMarkerClick l s
      = updateMarkers (setQueryParam l { s with selectedMarkerLabel := l }) := by
  have hb : (s.selectedMarkerLabel == l) = false := by simpa using hne
  cases hskip with
  | inl hl => simp [handleMarkerClick, hb, hl, setQueryParam]
  | inr hm =>
    rcases hlx : lookupAssoc s.markersRef l with _ | h2 <;>
      simp [handleMarkerClick, hb, hlx, hm, setQueryParam]

theorem hmc_select_fields (l : String) (s : MapState) (hne : s.selectedMarkerLabel ≠ l) :
    (handleMarkerClick l s).selectedMarkerLabel = l ∧
    (handleMarkerClick l s).map = s.map ∧
    (handleMarkerClick l s).L = s.L ∧
    (handleMarkerClick l s).markers = s.markers ∧
    (handleMarkerClick l s).defaultBounds = s.defaultBounds ∧
    (handleMarkerClick l s).markerLayer.isSome = s.markerLayer.isSome ∧
    (handleMarkerClick l s).query = navQueryOf l := by
  rcases hl : lookupAssoc s.markersRef l with _ | h
  · rw [hmc_select_skip l s hne (Or.inl hl)]
    simp [setQueryParam, updateMarkers_isSome]
  · cases hmap : s.map
    · rw [hmc_select_skip l s hne (Or.inr hmap)]
      simp [setQueryParam, updateMarkers_isSome, hmap]
    · rw [hmc_select_found l s h hne hl hmap]
      simp [setQueryParam, updateMarkers_isSome, hmap]

/-- C3 counterexample: before initialization (map handle, layer and library
ref all unset) a marker click is not a no-op — it mutates the selection and
the navigation-state key. -/
theorem preinit_click_mutates_state_cex :
    (initialState demoMarkers none).map = false ∧
    (initialState demoMarkers none).markerLayer = none ∧
    (initialState demoMarkers none).L = false ∧
    (handleMarkerClick "A" (initialState demoMarkers none)).selectedMarkerLabel = "A" ∧
    (handleMarkerClick "A" (initialState demoMarkers none)).query = some "A" ∧
    (initialState demoMarkers none).selectedMarkerLabel ≠ "A" ∧
    (initialState demoMarkers none).query ≠ some "A" := by
  refine ⟨rfl, rfl, rfl, rfl, rfl, by decide, by decide⟩

/-- C3 amended: while the marker layer, the default bounds and the handle
registry are still in their pre-Ready (unset/empty) state, `updateMarkers`
and `resetMapView` are guarded no-ops and no operation throws, but a marker
click is not a no-op: it still applies the selection toggle and writes the
new selection to the navigation-state key (camera, layer and registry stay
unchanged). -/
theorem preinit_operations_characterization (s : MapState)
    (h1 : s.markerLayer = none) (h2 : s.defaultBounds = none)
    (h3 : s.markersRef = []) :
    updateMarkers s = s ∧ resetMapView s = s ∧
    ∀ l, handleMarkerClick l s =
      { s with
          selectedMarkerLabel := if s.selectedMarkerLabel == l then "" else l
          query := navQueryOf (if s.selectedMarkerLabel == l then "" else l) } := by
  have hum : ∀ t : MapState, t.markerLayer = none → updateMarkers t = t := by
    intro t ht
    exact updateMarkers_skip t (by simp [ht])
  refine ⟨hum s h1, resetMapView_miss_bounds s h2, fun l => ?_⟩
  by_cases hsel : s.selectedMarkerLabel = l
  · rw [hmc_toggle l s hsel]
    rw [resetMapView_miss_bounds { s with selectedMarkerLabel := "" } h2]
    rw [hum (setQueryParam "" { s with selectedMarkerLabel := "" }) h1]
    simp [setQueryParam, hsel]
  · rw [hmc_select_skip l s hsel (Or.inl (by rw [h3]; rfl))]
    rw [hum (setQueryParam l { s with selectedMarkerLabel := l }) h1]
    simp [setQueryParam, hsel]

/-- Witness for the amended C3 at the freshly mounted demo state. -/
theorem preinit_operations_characterization_witness :
    (initialState demoMarkers none).markerLayer = none ∧
    (initialState demoMarkers none).defaultBounds = none ∧
    (initialState demoMarkers none).markersRef = [] ∧
    (updateMarkers (initialState demoMarkers none) = initialState demoMarkers none ∧
     resetMapView (initialState demoMarkers none) = initialState demoMarkers none ∧
     ∀ l, handleMarkerClick l (initialState demoMarkers none) =
       { initialState demoMarkers none with
           selectedMarkerLabel :=
             if (initialState demoMarkers none).selectedMarkerLabel == l then "" else l
           query := navQueryOf
             (if (initialState demoMarkers none).selectedMarkerLabel == l then "" else l) }) :=
  ⟨rfl, rfl, rfl, preinit_operations_characterization (initialState demoMarkers none) rfl rfl rfl⟩

/-- C4 counterexample: when "A" is already the selected label, clicking it
twice does not leave the selection empty — the first click toggles it off
and the second selects it again. -/
theorem select_twice_from_selected_cex :
    "A" ∈ demoReadySelA.markers.map Marker.label ∧
    (handleMarkerClick "A" (handleMarkerClick "A" demoReadySelA)).selectedMarkerLabel
      = "A" := by
  exact ⟨by decide, rfl⟩

/-- C4 amended: for a Ready state and a label not currently selected, two
successive clicks on it leave the selection empty, the camera reset to the
default bounds and the navigation-state key cleared (the second click takes
the toggle-off branch). -/
theorem select_twice_toggles_off (s : MapState) (lab : String) (b : LatLngBounds)
    (_hmem : lab ∈ s.markers.map Marker.label)
    (hne : s.selectedMarkerLabel ≠ lab)
    (hmap : s.map = true) (hb : s.defaultBounds = some b) :
    (handleMarkerClick lab (handleMarkerClick lab s)).selectedMarkerLabel = "" ∧
    (handleMarkerClick lab (handleMarkerClick lab s)).camera = some (CameraCmd.fit b) ∧
    (handleMarkerClick lab (handleMarkerClick lab s)).query = none := by
  obtain ⟨hsel1, hmap1, _, _, hdb1, _, _⟩ := hmc_select_fields lab s hne
  rw [hmc_toggle lab (handleMarkerClick lab s) hsel1]
  rw [resetMapView_hit { handleMarkerClick lab s with selectedMarkerLabel := "" } b
    (by simpa [hmap] using hmap1) (by simpa [hb] using hdb1)]
  refine ⟨?_, ?_, ?_⟩ <;> simp [setQueryParam, navQueryOf]

/-- Witness for the amended C4 at the Ready demo state. -/
theorem select_twice_toggles_off_witness :
    "A" ∈ demoReady.markers.map Marker.label ∧
    demoReady.selectedMarkerLabel ≠ "A" ∧
    demoReady.map = true ∧
    demoReady.defaultBounds = some demoBounds ∧
    ((handleMarkerClick "A" (handleMarkerClick "A" demoReady)).selectedMarkerLabel = "" ∧
     (handleMarkerClick "A" (handleMarkerClick "A" demoReady)).camera
        = some (CameraCmd.fit demoBounds) ∧
     (handleMarkerClick "A" (handleMarkerClick "A" demoReady)).query = none) :=
  ⟨by decide, by decide, rfl, rfl,
    select_twice_toggles_off demoReady "A" demoBounds (by decide) (by decide) rfl rfl⟩

/-- C6 counterexample: a `selectMarker` call whose label has no handle in
the registry but equals the current (stale) selection does not set the
selection to that label — it clears it and moves the camera (reset). -/
theorem selectMarker_missing_toggle_cex :
    lookupAssoc demoStale.markersRef "A" = none ∧
    demoStale.selectedMarkerLabel = "A" ∧
    (handleMarkerClick "A" demoStale).selectedMarkerLabel ≠ "A" ∧
    (handleMarkerClick "A" demoStale).camera ≠ demoStale.camera := by
  refine ⟨rfl, rfl, by decide, by decide⟩

/-- C6 amended: for a label distinct from the current selection whose handle
is absent from the registry, the click is non-fatal: the selection is set to
the label, the camera-move step is skipped (camera unchanged), and the call
concludes with the navigation-state write-back of the new selection followed
by a reconciliation pass. -/
theorem selectMarker_missing_handle_skips_camera (s : MapState) (lab : String)
    (hmiss : lookupAssoc s.markersRef lab = none)
    (hne : s.selectedMarkerLabel ≠ lab) :
    handleMarkerClick lab s
      = updateMarkers { s with selectedMarkerLabel := lab, query := navQueryOf lab } ∧
    (handleMarkerClick lab s).selectedMarkerLabel = lab ∧
    (handleMarkerClick lab s).camera = s.camera ∧
    (handleMarkerClick lab s).query = navQueryOf lab := by
  have he := hmc_select_skip lab s hne (Or.inl hmiss)
  refine ⟨he, ?_, ?_, ?_⟩ <;> rw [he] <;> simp [setQueryParam]

/-- Witness for the amended C6 at the stale-selection demo state, clicking
the absent label "B". -/
theorem selectMarker_missing_handle_skips_camera_witness :
    lookupAssoc demoStale.markersRef "B" = none ∧
    demoStale.selectedMarkerLabel ≠ "B" ∧
    (handleMarkerClick "B" demoStale
      = updateMarkers { demoStale with selectedMarkerLabel := "B", query := navQueryOf "B" } ∧
     (handleMarkerClick "B" demoStale).selectedMarkerLabel = "B" ∧
     (handleMarkerClick "B" demoStale).camera = demoStale.camera ∧
     (handleMarkerClick "B" demoStale).query = navQueryOf "B") :=
  ⟨rfl, by decide, selectMarker_missing_handle_skips_camera demoStale "B" rfl (by decide)⟩

theorem initializeMap_success_eq (s : MapState) (w h : ℚ) (hc : s.mapContainer = true) :
    initializeMap s (some (w, h))
      = ({ updateMarkers (postLoadState s w h) with isMapInitialized := true }, none) := by
  unfold initializeMap postLoadState
  rw [if_neg (by simp [hc])]

theorem setStateFromQueryParam_throws (s : MapState) (n : String)
    (hq : s.query = some n) (hn : n ≠ "") (hm : s.map = true)
    (hlk : lookupAssoc s.markersRef n = none) :
    setStateFromQueryParam s
      = ({ s with selectedMarkerLabel := n },
         some "TypeError: selectedMarker is undefined") := by
  simp [setStateFromQueryParam, hq, hn, hm, hlk]

/-- C2 counterexample: mounting with navigation-state key `name="C"` while
no marker carries "C" does not skip the camera move gracefully — the
restore step throws (TypeError on the missing handle) and the mount
handler catches and logs it. -/
theorem stateFromQuery_missing_marker_throws_cex :
    "C" ∉ demoMarkers.map Marker.label ∧
    (setStateFromQueryParam
        (initializeMap (initialState demoMarkers (some "C")) (some (100, 50))).1).2
      = some "TypeError: selectedMarker is undefined" ∧
    (onMountedFlow (initialState demoMarkers (some "C")) (some (100, 50))).log
      = ["Failed to initialize map:"] := by
  refine ⟨by decide, rfl, rfl⟩

/-- C2 amended: with navigation-state key `name` holding a nonempty label at
mount and initialization succeeding, the selection is restored to that
label; but when no marker carries the label the camera-move step throws
(rather than being skipped) and the error is caught and logged by the
mount handler. -/
theorem stateFromQuery_restores_selection_logs_error (ms : List Marker)
    (n : String) (w h : ℚ) (hn : n ≠ "") (habs : n ∉ ms.map Marker.label) :
    (onMountedFlow (initialState ms (some n)) (some (w, h))).selectedMarkerLabel = n ∧
    (onMountedFlow (initialState ms (some n)) (some (w, h))).log
      = ["Failed to initialize map:"] := by
  have hinit := initializeMap_success_eq (initialState ms (some n)) w h rfl
  have hrun := updateMarkers_run (postLoadState (initialState ms (some n)) w h) rfl rfl rfl
  have hlk : lookupAssoc
      ({ updateMarkers (postLoadState (initialState ms (some n)) w h) with
          isMapInitialized := true } : MapState).markersRef n = none := by
    have h1 : ({ updateMarkers (postLoadState (initialState ms (some n)) w h) with
        isMapInitialized := true } : MapState).markersRef
        = refsOf (postLoadState (initialState ms (some n)) w h) := by
      rw [hrun]
    rw [h1]
    have h2 := refsOf_isSome (postLoadState (initialState ms (some n)) w h) n
    rcases hres : lookupAssoc (refsOf (postLoadState (initialState ms (some n)) w h)) n
      with _ | hd
    · rfl
    · exfalso
      apply habs
      have : n ∈ (postLoadState (initialState ms (some n)) w h).markers.map Marker.label := by
        rw [← h2, hres]
        rfl
      simpa [postLoadState, initialState] using this
  have hthrow := setStateFromQueryParam_throws
    ({ updateMarkers (postLoadState (initialState ms (some n)) w h) with
        isMapInitialized := true }) n (by simp [postLoadState, initialState]) hn
    (by simp [postLoadState, initialState]) hlk
  unfold onMountedFlow
  rw [hinit]
  dsimp only
  rw [hthrow]
  dsimp only
  constructor
  · rfl
  · simp [postLoadState, initialState]

/-- Witness for the amended C2: restoring the absent label "C" over the demo
markers with a 100 × 50 image. -/
theorem stateFromQuery_restores_selection_logs_error_witness :
    ("C" : String) ≠ "" ∧ "C" ∉ demoMarkers.map Marker.label ∧
    ((onMountedFlow (initialState demoMarkers (some "C")) (some (100, 50))).selectedMarkerLabel
        = "C" ∧
     (onMountedFlow (initialState demoMarkers (some "C")) (some (100, 50))).log
        = ["Failed to initialize map:"]) :=
  ⟨by decide, by decide,
    stateFromQuery_restores_selection_logs_error demoMarkers "C" 100 50
      (by decide) (by decide)⟩

theorem bounds_pad_strict (w h : ℚ) (hw : 0 < w) (hh : 0 < h) :
    ((mkLatLngBounds (calculateBounds w h).bottomLeft
        (calculateBounds w h).topRight).padBy (10 / max w h)).south
      < (mkLatLngBounds (calculateBounds w h).bottomLeft
          (calculateBounds w h).topRight).south ∧
    (mkLatLngBounds (calculateBounds w h).bottomLeft
        (calculateBounds w h).topRight).north
      < ((mkLatLngBounds (calculateBounds w h).bottomLeft
          (calculateBounds w h).topRight).padBy (10 / max w h)).north ∧
    ((mkLatLngBounds (calculateBounds w h).bottomLeft
        (calculateBounds w h).topRight).padBy (10 / max w h)).west
      < (mkLatLngBounds (calculateBounds w h).bottomLeft
          (calculateBounds w h).topRight).west ∧
    (mkLatLngBounds (calculateBounds w h).bottomLeft
        (calculateBounds w h).topRight).east
      < ((mkLatLngBounds (calculateBounds w h).bottomLeft
          (calculateBounds w h).topRight).padBy (10 / max w h)).east := by
  have hmax : (0:ℚ) < max w h := lt_max_iff.mpr (Or.inl hw)
  have hr : 0 < 10 / max w h := div_pos (by norm_num) hmax
  simp only [calculateBounds, unproject, mkLatLngBounds, LatLngBounds.padBy,
    zpow_zero, div_one, zero_div, neg_zero]
  rw [min_eq_left (by linarith : -h ≤ (0:ℚ)),
      max_eq_right (by linarith : -h ≤ (0:ℚ)),
      min_eq_left hw.le, max_eq_right hw.le,
      show |(-h) - (0:ℚ)| = h by rw [sub_zero, abs_neg, abs_of_pos hh],
      show |(0:ℚ) - w| = w by rw [zero_sub, abs_neg, abs_of_pos hw]]
  have hhr : 0 < h * (10 / max w h) := mul_pos hh hr
  have hwr : 0 < w * (10 / max w h) := mul_pos hw hr
  refine ⟨?_, ?_, ?_, ?_⟩
  · calc min (-h - h * (10 / max w h)) (0 + h * (10 / max w h))
        ≤ -h - h * (10 / max w h) := min_le_left _ _
      _ < -h := by linarith
  · calc (0:ℚ) < 0 + h * (10 / max w h) := by linarith
      _ ≤ max (-h - h * (10 / max w h)) (0 + h * (10 / max w h)) := le_max_right _ _
  · calc min (0 - w * (10 / max w h)) (w + w * (10 / max w h))
        ≤ 0 - w * (10 / max w h) := min_le_left _ _
      _ < 0 := by linarith
  · calc w < w + w * (10 / max w h) := by linarith
      _ ≤ max (0 - w * (10 / max w h)) (w + w * (10 / max w h)) := le_max_right _ _

/-- C7: for positive image dimensions, successful initialization stores a
padded clamp rectangle obtained by expanding the exact image-fitting bounds
by the fraction 10 / max(width, height), and it strictly contains the
default bounds on all four sides. -/
theorem maxBounds_strictly_contains_defaultBounds (ms : List Marker)
    (q : Option String) (w h : ℚ) (hw : 0 < w) (hh : 0 < h) :
    ∃ db,
      (initializeMap (initialState ms q) (some (w, h))).1.defaultBounds = some db ∧
      (initializeMap (initialState ms q) (some (w, h))).1.maxBoundsSet
        = some (db.padBy (10 / max w h)) ∧
      (db.padBy (10 / max w h)).south < db.south ∧
      db.north < (db.padBy (10 / max w h)).north ∧
      (db.padBy (10 / max w h)).west < db.west ∧
      db.east < (db.padBy (10 / max w h)).east := by
  have hinit := initializeMap_success_eq (initialState ms q) w h rfl
  refine ⟨mkLatLngBounds (calculateBounds w h).bottomLeft (calculateBounds w h).topRight,
    ?_, ?_, ?_, ?_, ?_, ?_⟩
  · rw [hinit]
    dsimp only
    simp [postLoadState]
  · rw [hinit]
    dsimp only
    simp [postLoadState]
  · exact (bounds_pad_strict w h hw hh).1
  · exact (bounds_pad_strict w h hw hh).2.1
  · exact (bounds_pad_strict w h hw hh).2.2.1
  · exact (bounds_pad_strict w h hw hh).2.2.2

/-- Witness for C7 at a 100 × 50 image over the demo markers. -/
theorem maxBounds_strictly_contains_defaultBounds_witness :
    (0:ℚ) < 100 ∧ (0:ℚ) < 50 ∧
    (∃ db,
      (initializeMap (initialState demoMarkers none) (some (100, 50))).1.defaultBounds
        = some db ∧
      (initializeMap (initialState demoMarkers none) (some (100, 50))).1.maxBoundsSet
        = some (db.padBy (10 / max 100 50)) ∧
      (db.padBy (10 / max 100 50)).south < db.south ∧
      db.north < (db.padBy (10 / max 100 50)).north ∧
      (db.padBy (10 / max 100 50)).west < db.west ∧
      db.east < (db.padBy (10 / max 100 50)).east) :=
  ⟨by decide, by decide,
    maxBounds_strictly_contains_defaultBounds demoMarkers none 100 50
      (by decide) (by decide)⟩

/-- C8: when the image resource fails to load, `initializeMap` logs the
error and rejects (error returned to the caller), the ready flag stays
false, and nothing is partially rendered: no image metrics, no bounds, no
clamp, no marker layer and no handles; the mount handler then logs the
propagated failure once. -/
theorem init_failure_no_partial_rendering (ms : List Marker) (q : Option String) :
    initializeMap (initialState ms q) none
      = ({ initialState ms q with
             L := true, map := true, log := ["Error initializing map:"] },
         some "Failed to load floor plan") ∧
    (initializeMap (initialState ms q) none).1.isMapInitialized = false ∧
    (initializeMap (initialState ms q) none).1.imageHeight = 0 ∧
    (initializeMap (initialState ms q) none).1.defaultBounds = none ∧
    (initializeMap (initialState ms q) none).1.maxBoundsSet = none ∧
    (initializeMap (initialState ms q) none).1.markerLayer = none ∧
    (initializeMap (initialState ms q) none).1.markersRef = [] ∧
    (onMountedFlow (initialState ms q) none).log
      = ["Error initializing map:", "Failed to initialize map:"] := by
  refine ⟨?_, rfl, rfl, rfl, rfl, rfl, rfl, rfl⟩
  unfold initializeMap
  rw [if_neg (by simp [initialState])]
  dsimp only
  simp [initialState]

theorem hmc_inv (l : String) (s : MapState) :
    (handleMarkerClick l s).map = s.map ∧ (handleMarkerClick l s).L = s.L ∧
    (handleMarkerClick l s).markers = s.markers ∧
    (handleMarkerClick l s).markerLayer.isSome = s.markerLayer.isSome := by
  by_cases hsel : s.selectedMarkerLabel = l
  · rw [hmc_toggle l s hsel]
    simp [setQueryParam, updateMarkers_isSome]
  · obtain ⟨_, a, b, c, _, e, _⟩ := hmc_select_fields l s hsel
    exact ⟨a, b, c, e⟩

theorem applyClicks_inv (ls : List String) (s : MapState) :
    (applyClicks ls s).map = s.map ∧ (applyClicks ls s).L = s.L ∧
    (applyClicks ls s).markers = s.markers ∧
    (applyClicks ls s).markerLayer.isSome = s.markerLayer.isSome := by
  induction ls generalizing s with
  | nil => exact ⟨rfl, rfl, rfl, rfl⟩
  | cons l rest ih =>
    have h1 := hmc_inv l s
    have h2 := ih (handleMarkerClick l s)
    rw [show applyClicks (l :: rest) s = applyClicks rest (handleMarkerClick l s) from rfl]
    exact ⟨h2.1.trans h1.1, h2.2.1.trans h1.2.1, h2.2.2.1.trans h1.2.2.1,
      h2.2.2.2.trans h1.2.2.2⟩

theorem nodup_filter_label_le_one (ms : List Marker) (sel : String)
    (hnd : (ms.map Marker.label).Nodup) :
    (ms.filter (fun m => m.label == sel)).length ≤ 1 := by
  induction ms with
  | nil => simp
  | cons m rest ih =>
    rw [List.map_cons, List.nodup_cons] at hnd
    by_cases hm : m.label = sel
    · rw [List.filter_cons_of_pos (by simp [hm])]
      have hrest : rest.filter (fun x => x.label == sel) = [] := by
        apply List.filter_eq_nil_iff.mpr
        intro x hx
        simp only [beq_iff_eq]
        intro hxs
        exact hnd.1 (List.mem_map.mpr ⟨x, hx, by rw [hxs, hm]⟩)
      simp [hrest]
    · rw [List.filter_cons_of_neg (by simp [hm])]
      exact ih hnd.2

theorem exclusivity_core (t : MapState)
    (hnd : (t.markers.map Marker.label).Nodup)
    (hne : ∀ m ∈ t.markers, m.label ≠ "")
    (h1 : t.map = true) (h2 : t.markerLayer.isSome = true) (h3 : t.L = true) :
    ∀ hs : List Handle, (updateMarkers t).markerLayer = some hs →
      ((hs.filter (fun hd => hd.icon.selected)).length ≤ 1 ∧
       (∀ hd ∈ hs, hd.icon.selected = true → hd.icon.label = t.selectedMarkerLabel) ∧
       (t.selectedMarkerLabel = "" → hs.filter (fun hd => hd.icon.selected) = [])) := by
  intro hs hlayer
  rw [updateMarkers_run t h1 h2 h3] at hlayer
  have hhs : hs = layerOf t := (Option.some.inj hlayer).symm
  subst hhs
  have hicon : ∀ m : Marker,
      (mkHandle t m).icon = ⟨m.label, m.label == t.selectedMarkerLabel⟩ := by
    intro m
    simp [mkHandle, createMarkerIcon, h3]
  refine ⟨?_, ?_, ?_⟩
  · rw [layerOf, List.filter_map, List.length_map]
    have hfun : ((fun hd : Handle => hd.icon.selected) ∘ mkHandle t)
        = (fun m : Marker => m.label == t.selectedMarkerLabel) := by
      funext m
      simp [Function.comp, hicon m]
    rw [hfun]
    exact nodup_filter_label_le_one t.markers t.selectedMarkerLabel hnd
  · intro hd hmem hsel
    rw [layerOf] at hmem
    obtain ⟨m, hm, rfl⟩ := List.mem_map.mp hmem
    rw [hicon m] at hsel ⊢
    simpa using hsel
  · intro hsel0
    rw [layerOf]
    apply List.filter_eq_nil_iff.mpr
    intro hd hmem
    obtain ⟨m, hm, rfl⟩ := List.mem_map.mp hmem
    rw [hicon m]
    simp [hsel0]
    exact hne m hm

/-- C9: with unique, nonempty marker labels, after any sequence of
`selectMarker` clicks followed by a reconciliation pass on a live map, at
most one on-screen handle carries the selected styling — only a handle
whose label equals the current selection, and none when the selection is
empty. -/
theorem selection_exclusivity (s : MapState) (ls : List String)
    (hnd : (s.markers.map Marker.label).Nodup)
    (hne : ∀ m ∈ s.markers, m.label ≠ "")
    (h1 : s.map = true) (h2 : s.markerLayer.isSome = true) (h3 : s.L = true) :
    ∀ hs : List Handle,
      (updateMarkers (applyClicks ls s)).markerLayer = some hs →
      ((hs.filter (fun hd => hd.icon.selected)).length ≤ 1 ∧
       (∀ hd ∈ hs, hd.icon.selected = true →
          hd.icon.label = (applyClicks ls s).selectedMarkerLabel) ∧
       ((applyClicks ls s).selectedMarkerLabel = "" →
          hs.filter (fun hd => hd.icon.selected) = [])) := by
  obtain ⟨i1, i2, i3, i4⟩ := applyClicks_inv ls s
  exact exclusivity_core (applyClicks ls s) (by rw [i3]; exact hnd)
    (by rw [i3]; exact hne) (i1.trans h1) (i4.trans h2) (i2.trans h3)

/-- Witness for C9 at the Ready demo state after clicking "A" then "B". -/
theorem selection_exclusivity_witness :
    (demoReady.markers.map Marker.label).Nodup ∧
    (∀ m ∈ demoReady.markers, m.label ≠ "") ∧
    demoReady.map = true ∧ demoReady.markerLayer.isSome = true ∧
    demoReady.L = true ∧
    (∀ hs : List Handle,
      (updateMarkers (applyClicks ["A", "B"] demoReady)).markerLayer = some hs →
      ((hs.filter (fun hd => hd.icon.selected)).length ≤ 1 ∧
       (∀ hd ∈ hs, hd.icon.selected = true →
          hd.icon.label = (applyClicks ["A", "B"] demoReady).selectedMarkerLabel) ∧
       ((applyClicks ["A", "B"] demoReady).selectedMarkerLabel = "" →
          hs.filter (fun hd => hd.icon.selected) = []))) :=
  ⟨by decide, by decide, rfl, rfl, rfl,
    selection_exclusivity demoReady ["A", "B"] (by decide) (by decide) rfl rfl rfl⟩
